import Mathlib

/-!
Verification of the GERARD i18n system (`src/js/i18n.js`).

The file shallowly embeds the i18n module: the content document shape, the
language resolver (`detectLanguage`), the content loader (`loadContent`),
the language switcher (`switchLanguage`, `updateLangSwitcher`), and the
renderer.  DOM mutation is modelled by an explicit `Write` datatype:
`setText selector value` becomes `Write.text`, `innerHTML` assignments
become `Write.markup`, and the `renderMeta` effects become `Write.title`,
`Write.metaAttr` and `Write.docLang`.  Each render pass produces
`Except String (List Write)`: reading a field of an absent section record
throws a TypeError in JavaScript, modelled by `Except.error "TypeError"`.
`fetch` + `response.ok` + `response.json()` is modelled by an environment
`String → Option ContentDoc` (`none` = any load failure).
-/

set_option autoImplicit false

namespace I18n

/-! ## Content document data model (shape consumed by the render passes) -/

structure MetaC where
  title : String
  description : String
  keywords : String
  deriving DecidableEq, Repr

structure NavC where
  benefits : String
  howItWorks : String
  features : String
  faq : String
  contact : String
  cta : String
  deriving DecidableEq, Repr

structure HeroButton where
  text : String
  deriving DecidableEq, Repr

structure HeroC where
  tag : String
  title : String
  subtitle : String
  trustedBy : String
  buttons : List HeroButton
  deriving DecidableEq, Repr

/-- A record with a `title` and a `description`, the item shape used by
`benefits.features`, `differential.items`, `howItWorks.steps`,
`featureSet.features`, `useCases.cases`. -/
structure TitleDesc where
  title : String
  description : String
  deriving DecidableEq, Repr

structure MetricC where
  label : String
  value : String
  comparison : String
  deriving DecidableEq, Repr

structure BenefitsC where
  tag : String
  title : String
  subtitle : String
  metricsTitle : String
  features : List TitleDesc
  metrics : List MetricC
  deriving DecidableEq, Repr

structure DifferentialC where
  tag : String
  title : String
  items : List TitleDesc
  deriving DecidableEq, Repr

structure HowItWorksC where
  tag : String
  title : String
  steps : List TitleDesc
  integration : TitleDesc
  deriving DecidableEq, Repr

structure StageC where
  title : String
  description : String
  metric : String
  metricLabel : String
  deriving DecidableEq, Repr

structure EngineC where
  tag : String
  title : String
  subtitle : String
  statement : String
  stages : List StageC
  deriving DecidableEq, Repr

structure FeatureSetC where
  tag : String
  title : String
  features : List TitleDesc
  deriving DecidableEq, Repr

structure TestimonialC where
  quote : String
  author : String
  company : String
  deriving DecidableEq, Repr

structure TestimonialsC where
  tag : String
  title : String
  items : List TestimonialC
  deriving DecidableEq, Repr

structure TitledItems where
  title : String
  items : List String
  deriving DecidableEq, Repr

structure BeforeAfterC where
  tag : String
  title : String
  before : TitledItems
  after : TitledItems
  footer : List String
  deriving DecidableEq, Repr

structure UseCasesC where
  tag : String
  title : String
  cases : List TitleDesc
  deriving DecidableEq, Repr

structure FaqItem where
  question : String
  answer : String
  deriving DecidableEq, Repr

structure FaqC where
  tag : String
  title : String
  items : List FaqItem
  deriving DecidableEq, Repr

structure CTAButton where
  text : String
  deriving DecidableEq, Repr

structure FinalCTAC where
  title : String
  subtitle : String
  note : String
  buttons : List CTAButton
  deriving DecidableEq, Repr

/-- The `sections` record.  Every section is `Option`al: the spec treats
top-level sections as optional in the content document, and the claims are
about what each render pass does when its section is absent. -/
structure SectionsC where
  benefits : Option BenefitsC
  differential : Option DifferentialC
  howItWorks : Option HowItWorksC
  engine : Option EngineC
  featureSet : Option FeatureSetC
  testimonials : Option TestimonialsC
  beforeAfter : Option BeforeAfterC
  useCases : Option UseCasesC
  faq : Option FaqC
  finalCTA : Option FinalCTAC
  deriving DecidableEq, Repr

structure CompanyC where
  description : String
  deriving DecidableEq, Repr

structure ContactC where
  location : String
  deriving DecidableEq, Repr

structure FooterC where
  tagline : String
  company : CompanyC
  contact : ContactC
  copyright : String
  deriving DecidableEq, Repr

structure ContentDoc where
  lang : String
  meta : MetaC
  nav : NavC
  hero : HeroC
  sections : SectionsC
  footer : FooterC
  deriving DecidableEq, Repr

/-! ## DOM model -/

/-- Content of a DOM element.  `text s` is the result of `el.textContent = s`
(the string is displayed literally, markup characters escaped); `markup s` is
the result of `el.innerHTML = s` (the string is parsed as markup). -/
inductive NodeContent where
  | text (s : String)
  | markup (s : String)
  deriving DecidableEq, Repr

/-- One DOM mutation performed by the renderer. -/
inductive Write where
  | text (selector value : String)
  | markup (selector value : String)
  | title (value : String)
  | metaAttr (name value : String)
  | docLang (value : String)
  deriving DecidableEq, Repr

/-- The page: content-bearing elements keyed by the selector that finds them
(`document.querySelector` returns the first match), plus document metadata. -/
structure Dom where
  nodes : List (String × NodeContent)
  title : String
  metas : List (String × String)
  docLang : String
  deriving DecidableEq, Repr

/-- Update the first entry whose key equals `s`; a page with no matching
element is left unchanged (`querySelector` returned null, the helper skips). -/
def setNode (nodes : List (String × NodeContent)) (s : String) (c : NodeContent) :
    List (String × NodeContent) :=
  match nodes with
  | [] => []
  | (k, v) :: rest => if k = s then (k, c) :: rest else (k, v) :: setNode rest s c

/-- Update the first meta tag named `n` (the `?.setAttribute` optional chain:
no matching tag means no write). -/
def setMeta (metas : List (String × String)) (n v : String) : List (String × String) :=
  match metas with
  | [] => []
  | (k, old) :: rest => if k = n then (k, v) :: rest else (k, old) :: setMeta rest n v

def applyWrite (d : Dom) : Write → Dom
  | .text s v => { d with nodes := setNode d.nodes s (.text v) }
  | .markup s v => { d with nodes := setNode d.nodes s (.markup v) }
  | .title v => { d with title := v }
  | .metaAttr n v => { d with metas := setMeta d.metas n v }
  | .docLang v => { d with docLang := v }

def applyWrites (ws : List Write) (d : Dom) : Dom :=
  ws.foldl applyWrite d

/-- Model of `document.querySelector(s)` on the page, returning the element's
content. -/
def lookupNode (d : Dom) (s : String) : Option NodeContent :=
  (d.nodes.find? (fun p => p.1 == s)).map (fun p => p.2)

/-! ## Render passes

Each `renderX` method of `i18n.js` becomes a function
`ContentDoc → Except String (List Write)`: the list of DOM writes the pass
performs, or `Except.error "TypeError"` when the pass reads a field of an
absent section record (JavaScript throws a TypeError there, aborting the
render).  `setText sel v` is `Write.text sel v`; `setHTML sel v` is
`Write.markup sel v`. -/

/-- Selector `[data-i18n="path"]` used by every `setText`/`setHTML` call. -/
def i18nSel (path : String) : String :=
  "[data-i18n=\"" ++ path ++ "\"]"

def renderMeta (c : ContentDoc) : Except String (List Write) :=
  .ok [ .title c.meta.title,
        .metaAttr "description" c.meta.description,
        .metaAttr "keywords" c.meta.keywords,
        .docLang c.lang ]

def renderNav (c : ContentDoc) : Except String (List Write) :=
  .ok [ .text (i18nSel "nav.benefits") c.nav.benefits,
        .text (i18nSel "nav.howItWorks") c.nav.howItWorks,
        .text (i18nSel "nav.features") c.nav.features,
        .text (i18nSel "nav.faq") c.nav.faq,
        .text (i18nSel "nav.contact") c.nav.contact,
        .text (i18nSel "nav.cta") c.nav.cta ]

def renderHero (c : ContentDoc) : Except String (List Write) :=
  .ok ([ .text (i18nSel "hero.tag") c.hero.tag,
         .text (i18nSel "hero.title") c.hero.title,
         .text (i18nSel "hero.subtitle") c.hero.subtitle,
         .text (i18nSel "hero.trustedBy") c.hero.trustedBy ] ++
    c.hero.buttons.enum.flatMap (fun p =>
      [Write.text (i18nSel ("hero.buttons." ++ toString p.1)) p.2.text]))

def renderBenefits (c : ContentDoc) : Except String (List Write) :=
  match c.sections.benefits with
  | none => .error "TypeError"
  | some benefits =>
    .ok ([ .text (i18nSel "benefits.tag") benefits.tag,
           .text (i18nSel "benefits.title") benefits.title,
           .text (i18nSel "benefits.subtitle") benefits.subtitle,
           .text (i18nSel "benefits.metricsTitle") benefits.metricsTitle ] ++
      benefits.features.enum.flatMap (fun p =>
        [Write.text (i18nSel ("benefits.features." ++ toString p.1 ++ ".title")) p.2.title,
         Write.text (i18nSel ("benefits.features." ++ toString p.1 ++ ".description"))
           p.2.description]) ++
      benefits.metrics.enum.flatMap (fun p =>
        [Write.text (i18nSel ("benefits.metrics." ++ toString p.1 ++ ".label")) p.2.label,
         Write.text (i18nSel ("benefits.metrics." ++ toString p.1 ++ ".value")) p.2.value,
         Write.text (i18nSel ("benefits.metrics." ++ toString p.1 ++ ".comparison"))
           p.2.comparison]))

def renderDifferential (c : ContentDoc) : Except String (List Write) :=
  match c.sections.differential with
  | none => .error "TypeError"
  | some differential =>
    .ok ([ .text (i18nSel "differential.tag") differential.tag,
           .text (i18nSel "differential.title") differential.title ] ++
      differential.items.enum.flatMap (fun p =>
        [Write.text (i18nSel ("differential.items." ++ toString p.1 ++ ".title")) p.2.title,
         Write.text (i18nSel ("differential.items." ++ toString p.1 ++ ".description"))
           p.2.description]))

def renderHowItWorks (c : ContentDoc) : Except String (List Write) :=
  match c.sections.howItWorks with
  | none => .error "TypeError"
  | some howItWorks =>
    .ok ([ .text (i18nSel "howItWorks.tag") howItWorks.tag,
           .text (i18nSel "howItWorks.title") howItWorks.title ] ++
      howItWorks.steps.enum.flatMap (fun p =>
        [Write.text (i18nSel ("howItWorks.steps." ++ toString p.1 ++ ".title")) p.2.title,
         Write.text (i18nSel ("howItWorks.steps." ++ toString p.1 ++ ".description"))
           p.2.description]) ++
      [ .text (i18nSel "howItWorks.integration.title") howItWorks.integration.title,
        .text (i18nSel "howItWorks.integration.description")
          howItWorks.integration.description ])

/-- The only pass that guards against its section being absent:
`if (!engine) return;`. -/
def renderEngine (c : ContentDoc) : Except String (List Write) :=
  match c.sections.engine with
  | none => .ok []
  | some engine =>
    .ok ([ .text (i18nSel "engine.tag") engine.tag,
           .text (i18nSel "engine.title") engine.title,
           .text (i18nSel "engine.subtitle") engine.subtitle,
           .markup (i18nSel "engine.statement") engine.statement ] ++
      engine.stages.enum.flatMap (fun p =>
        [Write.text (i18nSel ("engine.stages." ++ toString p.1 ++ ".title")) p.2.title,
         Write.text (i18nSel ("engine.stages." ++ toString p.1 ++ ".description"))
           p.2.description,
         Write.text (i18nSel ("engine.stages." ++ toString p.1 ++ ".metric")) p.2.metric,
         Write.text (i18nSel ("engine.stages." ++ toString p.1 ++ ".metricLabel"))
           p.2.metricLabel]))

def renderFeatures (c : ContentDoc) : Except String (List Write) :=
  match c.sections.featureSet with
  | none => .error "TypeError"
  | some featureSet =>
    .ok ([ .text (i18nSel "featureSet.tag") featureSet.tag,
           .text (i18nSel "featureSet.title") featureSet.title ] ++
      featureSet.features.enum.flatMap (fun p =>
        [Write.text (i18nSel ("featureSet.features." ++ toString p.1 ++ ".title")) p.2.title,
         Write.text (i18nSel ("featureSet.features." ++ toString p.1 ++ ".description"))
           p.2.description]))

def renderTestimonials (c : ContentDoc) : Except String (List Write) :=
  match c.sections.testimonials with
  | none => .error "TypeError"
  | some testimonials =>
    .ok ([ .text (i18nSel "testimonials.tag") testimonials.tag,
           .text (i18nSel "testimonials.title") testimonials.title ] ++
      testimonials.items.enum.flatMap (fun p =>
        [Write.text (i18nSel ("testimonials.items." ++ toString p.1 ++ ".quote"))
           ("\"" ++ p.2.quote ++ "\""),
         Write.text (i18nSel ("testimonials.items." ++ toString p.1 ++ ".author")) p.2.author,
         Write.text (i18nSel ("testimonials.items." ++ toString p.1 ++ ".company"))
           p.2.company]))

def renderBeforeAfter (c : ContentDoc) : Except String (List Write) :=
  match c.sections.beforeAfter with
  | none => .error "TypeError"
  | some beforeAfter =>
    .ok ([ .text (i18nSel "beforeAfter.tag") beforeAfter.tag,
           .text (i18nSel "beforeAfter.title") beforeAfter.title,
           .text (i18nSel "beforeAfter.before.title") beforeAfter.before.title,
           .text (i18nSel "beforeAfter.after.title") beforeAfter.after.title,
           .markup (i18nSel "beforeAfter.before.items")
             (String.join (beforeAfter.before.items.map
               (fun item => "<li>" ++ item ++ "</li>"))),
           .markup (i18nSel "beforeAfter.after.items")
             (String.join (beforeAfter.after.items.map
               (fun item => "<li>" ++ item ++ "</li>"))) ] ++
      beforeAfter.footer.enum.flatMap (fun p =>
        [Write.text (i18nSel ("beforeAfter.footer." ++ toString p.1)) p.2]))

def renderUseCases (c : ContentDoc) : Except String (List Write) :=
  match c.sections.useCases with
  | none => .error "TypeError"
  | some useCases =>
    .ok ([ .text (i18nSel "useCases.tag") useCases.tag,
           .text (i18nSel "useCases.title") useCases.title ] ++
      useCases.cases.enum.flatMap (fun p =>
        [Write.text (i18nSel ("useCases.cases." ++ toString p.1 ++ ".title")) p.2.title,
         Write.text (i18nSel ("useCases.cases." ++ toString p.1 ++ ".description"))
           p.2.description]))

def renderFAQ (c : ContentDoc) : Except String (List Write) :=
  match c.sections.faq with
  | none => .error "TypeError"
  | some faq =>
    .ok ([ .text (i18nSel "faq.tag") faq.tag,
           .text (i18nSel "faq.title") faq.title ] ++
      faq.items.enum.flatMap (fun p =>
        [Write.text (i18nSel ("faq.items." ++ toString p.1 ++ ".question")) p.2.question,
         Write.text (i18nSel ("faq.items." ++ toString p.1 ++ ".answer")) p.2.answer]))

def renderFinalCTA (c : ContentDoc) : Except String (List Write) :=
  match c.sections.finalCTA with
  | none => .error "TypeError"
  | some finalCTA =>
    .ok ([ .text (i18nSel "finalCTA.title") finalCTA.title,
           .text (i18nSel "finalCTA.subtitle") finalCTA.subtitle,
           .text (i18nSel "finalCTA.note") finalCTA.note ] ++
      finalCTA.buttons.enum.flatMap (fun p =>
        [Write.text (i18nSel ("finalCTA.buttons." ++ toString p.1)) p.2.text]))

def renderFooter (c : ContentDoc) : Except String (List Write) :=
  .ok [ .text (i18nSel "footer.tagline") c.footer.tagline,
        .text (i18nSel "footer.company.description") c.footer.company.description,
        .text (i18nSel "footer.contact.location") c.footer.contact.location,
        .text (i18nSel "footer.copyright") c.footer.copyright ]

/-- The passes of `render()`, in source order. -/
def passes : List (ContentDoc → Except String (List Write)) :=
  [renderMeta, renderNav, renderHero, renderBenefits, renderDifferential,
   renderHowItWorks, renderEngine, renderFeatures, renderTestimonials,
   renderBeforeAfter, renderUseCases, renderFAQ, renderFinalCTA, renderFooter]

/-- Run passes in order; writes of the passes before the first error are
performed, a thrown error aborts the remaining passes. -/
def runPasses (ps : List (ContentDoc → Except String (List Write))) (c : ContentDoc) :
    List Write × Option String :=
  match ps with
  | [] => ([], none)
  | p :: rest =>
    match p c with
    | .error e => ([], some e)
    | .ok ws =>
      let r := runPasses rest c
      (ws ++ r.1, r.2)

/-- The `render()` method: `if (!this.content) return;`, otherwise run every pass.
Returns the mutated page and the error that escaped, if any. -/
def render (content : Option ContentDoc) (d : Dom) : Dom × Option String :=
  match content with
  | none => (d, none)
  | some c =>
    let r := runPasses passes c
    (applyWrites r.1 d, r.2)

/-! ## Language resolver (`detectLanguage`) -/

/-- Read-only browser inputs of `detectLanguage`: `window.location.pathname`,
`new URLSearchParams(window.location.search).get('lang')` (null becomes
`none`), `localStorage.getItem('gerard-lang')` (null becomes `none`) and
`navigator.language`. -/
structure Browser where
  pathname : String
  langParam : Option String
  storedLang : Option String
  navigatorLanguage : String
  deriving DecidableEq, Repr

def supportedLangs : List String := ["es", "en"]

/-- Model of `window.location.pathname.match(/^\/(en|es)\//)`, reduced to its capture
group: the regex matches exactly when the first four characters of the path
are `/en/` or `/es/` (alternatives tried left to right). -/
def pathMatch (pathname : String) : Option String :=
  if pathname.data.take 4 = "/en/".data then some "en"
  else if pathname.data.take 4 = "/es/".data then some "es"
  else none

/-- Model of `navigator.language.slice(0, 2)`: the first two characters. -/
def slice2 (s : String) : String :=
  (s.data.take 2).asString

/-- Steps 4 and 5 of `detectLanguage`: the browser language
(`browserLang = navigator.language.slice(0, 2)`), then the default. -/
def detectFromNavigator (b : Browser) : String :=
  if supportedLangs.contains (slice2 b.navigatorLanguage) then slice2 b.navigatorLanguage
  else "es"

/-- Step 3 of `detectLanguage`: `storedLang && supportedLangs.includes(...)`
(the truthiness test makes the empty string fall through). -/
def detectFromStored (b : Browser) : String :=
  match b.storedLang with
  | some storedLang =>
    if storedLang != "" && supportedLangs.contains storedLang then storedLang
    else detectFromNavigator b
  | none => detectFromNavigator b

def detectLanguage (b : Browser) : String :=
  match pathMatch b.pathname with
  | some l => l
  | none =>
    match b.langParam with
    | some langParam =>
      if langParam != "" && supportedLangs.contains langParam then langParam
      else detectFromStored b
    | none => detectFromStored b

/-! ## Loader and switcher state -/

/-- The mutable state `loadContent` touches: the `I18n` object's fields plus
the `gerard-lang` key of `localStorage`. -/
structure AppState where
  currentLang : String
  content : Option ContentDoc
  gerardLang : Option String
  deriving DecidableEq, Repr

set_option linter.unusedVariables false in
/-- The `loadContent(lang)` method.  The environment `env` models
`fetch('/content/content-' + lang + '.json')` together with the
`response.ok` test and `response.json()`: `none` is any of those failing.
On success the parsed document is stored and the preference written; on
failure, if `lang` is not already `'es'` the whole procedure recurses once
on `'es'`.  The second component records every load issued, in order. -/
def loadContent (st : AppState) (env : String → Option ContentDoc) (lang : String) :
    AppState × List String :=
  match env lang with
  | some doc => ({ st with content := some doc, gerardLang := some lang }, [lang])
  | none =>
    if h : lang = "es" then (st, [lang])
    else
      let r := loadContent st env "es"
      (r.1, lang :: r.2)
termination_by (if lang = "es" then 0 else 1)
decreasing_by simp [h]

/-- One control of the `#lang-switcher` widget: its `data-lang` attribute and
whether its class list holds `active`. -/
structure LangButton where
  dataLang : String
  active : Bool
  deriving DecidableEq, Repr

/-- The `updateLangSwitcher()` method:
`btn.classList.toggle('active', btn.dataset.lang === this.currentLang)` on
every `#lang-switcher [data-lang]` control. -/
def updateLangSwitcher (currentLang : String) (buttons : List LangButton) :
    List LangButton :=
  buttons.map (fun b => { b with active := b.dataLang == currentLang })

structure SwitchResult where
  state : AppState
  dom : Dom
  buttons : List LangButton
  fetched : List String
  err : Option String
  deriving DecidableEq, Repr

/-- The `switchLanguage(lang)` method: early return on the current language, else set
`currentLang`, load, render, and update the switcher.  If the render throws
(section absent), the error escapes the async method before
`updateLangSwitcher()` runs. -/
def switchLanguage (st : AppState) (d : Dom) (buttons : List LangButton)
    (env : String → Option ContentDoc) (lang : String) : SwitchResult :=
  if lang = st.currentLang then ⟨st, d, buttons, [], none⟩
  else
    let st1 := { st with currentLang := lang }
    let r := loadContent st1 env lang
    let p := render r.1.content d
    match p.2 with
    | some e => ⟨r.1, p.1, buttons, r.2, some e⟩
    | none => ⟨r.1, p.1, updateLangSwitcher r.1.currentLang buttons, r.2, none⟩

/-! ## Concrete sample data (used by witnesses and counterexamples) -/

def benefits0 : BenefitsC := ⟨"", "", "", "", [], []⟩

def differential0 : DifferentialC := ⟨"", "", []⟩

def howItWorks0 : HowItWorksC := ⟨"", "", [], ⟨"", ""⟩⟩

def engine0 : EngineC := ⟨"", "", "", "", []⟩

def featureSet0 : FeatureSetC := ⟨"", "", []⟩

def testimonials0 : TestimonialsC := ⟨"", "", []⟩

def beforeAfter0 : BeforeAfterC := ⟨"", "", ⟨"", []⟩, ⟨"", []⟩, []⟩

def useCases0 : UseCasesC := ⟨"", "", []⟩

def faq0 : FaqC := ⟨"", "", []⟩

def finalCTA0 : FinalCTAC := ⟨"", "", "", []⟩

/-- A content document with every section present. -/
def fullDoc : ContentDoc :=
  ⟨"es", ⟨"", "", ""⟩, ⟨"", "", "", "", "", ""⟩, ⟨"", "", "", "", []⟩,
   ⟨some benefits0, some differential0, some howItWorks0, some engine0,
    some featureSet0, some testimonials0, some beforeAfter0, some useCases0,
    some faq0, some finalCTA0⟩,
   ⟨"", ⟨""⟩, ⟨""⟩, ""⟩⟩

/-- Copy of `fullDoc` with a markup-bearing string among `beforeAfter.before.items`. -/
def boldItemDoc : ContentDoc :=
  { fullDoc with sections :=
      { fullDoc.sections with beforeAfter := some ⟨"", "", ⟨"", ["<b>hi</b>"]⟩, ⟨"", []⟩, []⟩ } }

/-- Copy of `fullDoc` with `sections.benefits` absent and a nonempty FAQ title. -/
def noBenefitsDoc : ContentDoc :=
  { fullDoc with sections :=
      { fullDoc.sections with benefits := none, faq := some ⟨"", "NEW", []⟩ } }

/-- Copy of `fullDoc` with only `sections.engine` absent. -/
def noEngineDoc : ContentDoc :=
  { fullDoc with sections := { fullDoc.sections with engine := none } }

/-- A page holding the two elements the counterexamples look at. -/
def dom0 : Dom :=
  ⟨[(i18nSel "beforeAfter.before.items", .text "old"),
    (i18nSel "faq.title", .text "old")], "t", [("description", "d")], "es"⟩

def buttons0 : List LangButton := [⟨"es", true⟩, ⟨"en", false⟩]

/-- Environment where only the Spanish document loads. -/
def envEsOnly : String → Option ContentDoc :=
  fun lang => if lang = "es" then some fullDoc else none

/-- Environment where every load fails. -/
def envFail : String → Option ContentDoc := fun _ => none

/-- Environment where every load succeeds with `fullDoc`. -/
def envOk : String → Option ContentDoc := fun _ => some fullDoc

/-! ## Unfolding lemmas for `loadContent` -/

theorem loadContent_success (st : AppState) (env : String → Option ContentDoc)
    (lang : String) (doc : ContentDoc) (h : env lang = some doc) :
    loadContent st env lang =
      ({ st with content := some doc, gerardLang := some lang }, [lang]) := by
  rw [loadContent.eq_def, h]

theorem loadContent_fail_default (st : AppState) (env : String → Option ContentDoc)
    (h : env "es" = none) : loadContent st env "es" = (st, ["es"]) := by
  rw [loadContent.eq_def, h]
  rfl

theorem loadContent_fail_fallback (st : AppState) (env : String → Option ContentDoc)
    (lang : String) (h : env lang = none) (hne : lang ≠ "es") :
    loadContent st env lang =
      ((loadContent st env "es").1, lang :: (loadContent st env "es").2) := by
  rw [loadContent.eq_def, h]
  simp [hne]

/-- C3: if the load of a non-default language fails and the fallback load of
the default `'es'` also fails, the whole state (in particular `content`) is
left as it was; with `content` still unset, a subsequent `render` returns the
page unchanged and raises nothing. -/
theorem C3_double_failure_noop (st : AppState) (env : String → Option ContentDoc)
    (lang : String) (h1 : lang ≠ "es") (h2 : env lang = none) (h3 : env "es" = none) :
    (loadContent st env lang).1 = st ∧
    (st.content = none → ∀ d : Dom, render (loadContent st env lang).1.content d = (d, none)) := by
  have hload : (loadContent st env lang).1 = st := by
    rw [loadContent_fail_fallback st env lang h2 h1, loadContent_fail_default st env h3]
  refine ⟨hload, fun hc d => ?_⟩
  rw [hload, hc]
  rfl

theorem C3_double_failure_noop_witness :
    (loadContent ⟨"es", none, none⟩ envFail "en").1 = ⟨"es", none, none⟩ ∧
    render (loadContent ⟨"es", none, none⟩ envFail "en").1.content dom0 = (dom0, none) := by
  have h := C3_double_failure_noop ⟨"es", none, none⟩ envFail "en"
    (by decide) rfl rfl
  exact ⟨h.1, h.2 rfl dom0⟩

/-- C5: a failing load of a non-default language issues exactly one fallback
load of `'es'` (the loads issued are `[lang, "es"]`, whether or not the
fallback succeeds), and a failing load of the default language issues no
further load. -/
theorem C5_single_fallback (st : AppState) (env : String → Option ContentDoc)
    (lang : String) (h1 : lang ≠ "es") (h2 : env lang = none) :
    (loadContent st env lang).2 = [lang, "es"] ∧
    (∀ st2 : AppState, env "es" = none → (loadContent st2 env "es").2 = ["es"]) := by
  constructor
  · rw [loadContent_fail_fallback st env lang h2 h1]
    cases h3 : env "es" with
    | none => rw [loadContent_fail_default st env h3]
    | some doc => rw [loadContent_success st env "es" doc h3]
  · intro st2 h3
    rw [loadContent_fail_default st2 env h3]

theorem C5_single_fallback_witness :
    (loadContent ⟨"es", none, none⟩ envFail "en").2 = ["en", "es"] ∧
    (loadContent ⟨"es", none, none⟩ envFail "es").2 = ["es"] := by
  have h := C5_single_fallback ⟨"es", none, none⟩ envFail "en" (by decide) rfl
  exact ⟨h.1, h.2 ⟨"es", none, none⟩ rfl⟩

/-- C7: a successful load of `lang` stores the parsed document and writes the
stored preference `lang`; a failing load of the default writes nothing at
all; a failing load of a non-default language contributes no write of its
own — the final state is exactly the state of the fallback load of `'es'`. -/
theorem C7_stored_preference (st : AppState) (env : String → Option ContentDoc)
    (lang : String) :
    (∀ doc, env lang = some doc →
      (loadContent st env lang).1 =
        { st with content := some doc, gerardLang := some lang }) ∧
    (env lang = none → lang = "es" → (loadContent st env lang).1 = st) ∧
    (env lang = none → lang ≠ "es" →
      (loadContent st env lang).1 = (loadContent st env "es").1) := by
  refine ⟨fun doc h => ?_, fun h he => ?_, fun h hne => ?_⟩
  · rw [loadContent_success st env lang doc h]
  · subst he
    rw [loadContent_fail_default st env h]
  · rw [loadContent_fail_fallback st env lang h hne]

theorem C7_stored_preference_witness :
    (loadContent ⟨"es", none, none⟩ envOk "en").1 =
      { currentLang := "es", content := some fullDoc, gerardLang := some "en" } ∧
    (loadContent ⟨"es", none, none⟩ envFail "es").1 = ⟨"es", none, none⟩ := by
  have h1 := (C7_stored_preference ⟨"es", none, none⟩ envOk "en").1 fullDoc rfl
  have h2 := (C7_stored_preference ⟨"es", none, none⟩ envFail "es").2.1 rfl rfl
  exact ⟨h1, h2⟩

/-- C8: `render()` with unset content (`if (!this.content) return;`) leaves
the page, including document metadata, untouched and raises nothing. -/
theorem C8_render_unset_noop (st : AppState) (d : Dom) (h : st.content = none) :
    render st.content d = (d, none) := by
  rw [h]
  rfl

theorem C8_render_unset_noop_witness :
    render (AppState.mk "es" none none).content dom0 = (dom0, none) :=
  C8_render_unset_noop ⟨"es", none, none⟩ dom0 rfl

/-- C9: `switchLanguage(lang)` with `lang` equal to the current language
returns immediately: no load is issued and state, page and switcher controls
are all unchanged. -/
theorem C9_switch_same_noop (st : AppState) (d : Dom) (buttons : List LangButton)
    (env : String → Option ContentDoc) (lang : String) (h : lang = st.currentLang) :
    switchLanguage st d buttons env lang = ⟨st, d, buttons, [], none⟩ := by
  rw [switchLanguage, if_pos h]

theorem C9_switch_same_noop_witness :
    switchLanguage ⟨"en", none, none⟩ dom0 buttons0 envOk "en" =
      ⟨⟨"en", none, none⟩, dom0, buttons0, [], none⟩ :=
  C9_switch_same_noop ⟨"en", none, none⟩ dom0 buttons0 envOk "en" rfl

/-! ## Resolver lemmas -/

theorem supported_passes_check {v : String} (h : v ∈ supportedLangs) :
    (v != "" && supportedLangs.contains v) = true := by
  have h1 : (v != "") = true := by
    simp only [supportedLangs, List.mem_cons, List.not_mem_nil, or_false] at h
    rcases h with rfl | rfl <;> decide
  have h2 : supportedLangs.contains v = true := List.elem_iff.mpr h
  rw [h1, h2]
  rfl

theorem unsupported_fails_check {v : String} (h : v ∉ supportedLangs) :
    (v != "" && supportedLangs.contains v) = false := by
  have h2 : supportedLangs.contains v = false := by
    cases hc : supportedLangs.contains v with
    | false => rfl
    | true => exact absurd (List.elem_iff.mp hc) h
  rw [h2, Bool.and_false]

theorem pathMatch_supported {p l : String} (h : pathMatch p = some l) :
    l ∈ supportedLangs := by
  unfold pathMatch at h
  split_ifs at h <;> simp_all <;> subst h <;> decide

theorem detectFromNavigator_supported (b : Browser)
    (h : slice2 b.navigatorLanguage ∈ supportedLangs) :
    detectFromNavigator b = slice2 b.navigatorLanguage := by
  unfold detectFromNavigator
  rw [if_pos (List.elem_iff.mpr h)]

theorem detectFromNavigator_default (b : Browser)
    (h : slice2 b.navigatorLanguage ∉ supportedLangs) :
    detectFromNavigator b = "es" := by
  unfold detectFromNavigator
  cases hc : supportedLangs.contains (slice2 b.navigatorLanguage) with
  | false => rw [if_neg Bool.false_ne_true]
  | true => exact absurd (List.elem_iff.mp hc) h

theorem detectFromNavigator_mem (b : Browser) :
    detectFromNavigator b ∈ supportedLangs := by
  by_cases h : slice2 b.navigatorLanguage ∈ supportedLangs
  · rw [detectFromNavigator_supported b h]
    exact h
  · rw [detectFromNavigator_default b h]
    decide

theorem detectFromStored_some (b : Browser) (w : String) (hs : b.storedLang = some w) :
    detectFromStored b =
      (if w != "" && supportedLangs.contains w then w else detectFromNavigator b) := by
  unfold detectFromStored
  rw [hs]

theorem detectFromStored_none (b : Browser) (hs : b.storedLang = none) :
    detectFromStored b = detectFromNavigator b := by
  unfold detectFromStored
  rw [hs]

theorem detectFromStored_supported (b : Browser) (w : String) (hs : b.storedLang = some w)
    (hw : w ∈ supportedLangs) : detectFromStored b = w := by
  rw [detectFromStored_some b w hs, if_pos (by rw [supported_passes_check hw])]

theorem detectFromStored_skip (b : Browser)
    (hall : ∀ v, b.storedLang = some v → v ∉ supportedLangs) :
    detectFromStored b = detectFromNavigator b := by
  cases hs : b.storedLang with
  | none => exact detectFromStored_none b hs
  | some w =>
    rw [detectFromStored_some b w hs,
      if_neg (by rw [unsupported_fails_check (hall w hs)]; exact Bool.false_ne_true)]

theorem detectFromStored_mem (b : Browser) : detectFromStored b ∈ supportedLangs := by
  cases hs : b.storedLang with
  | none =>
    rw [detectFromStored_none b hs]
    exact detectFromNavigator_mem b
  | some w =>
    by_cases hw : w ∈ supportedLangs
    · rw [detectFromStored_supported b w hs hw]
      exact hw
    · rw [detectFromStored_some b w hs,
        if_neg (by rw [unsupported_fails_check hw]; exact Bool.false_ne_true)]
      exact detectFromNavigator_mem b

theorem detectLanguage_path (b : Browser) (l : String)
    (h : pathMatch b.pathname = some l) : detectLanguage b = l := by
  unfold detectLanguage
  rw [h]

theorem detectLanguage_noPath_param (b : Browser) (w : String)
    (hp : pathMatch b.pathname = none) (hq : b.langParam = some w) :
    detectLanguage b =
      (if w != "" && supportedLangs.contains w then w else detectFromStored b) := by
  unfold detectLanguage
  rw [hp, hq]

theorem detectLanguage_noPath_noParam (b : Browser)
    (hp : pathMatch b.pathname = none) (hq : b.langParam = none) :
    detectLanguage b = detectFromStored b := by
  unfold detectLanguage
  rw [hp, hq]

theorem detectLanguage_param_skip (b : Browser) (hp : pathMatch b.pathname = none)
    (hall : ∀ v, b.langParam = some v → v ∉ supportedLangs) :
    detectLanguage b = detectFromStored b := by
  cases hq : b.langParam with
  | none => exact detectLanguage_noPath_noParam b hp hq
  | some w =>
    rw [detectLanguage_noPath_param b w hp hq,
      if_neg (by rw [unsupported_fails_check (hall w hq)]; exact Bool.false_ne_true)]

/-- C4: `detectLanguage` follows the priority order
path > query > stored preference > browser locale > default `'es'`
(each signal counting only when it carries a supported code; the path signal
is the `/{lang}/` prefix the URL contract defines), and its result is always
a member of the supported set. -/
theorem C4_resolver_priority (b : Browser) :
    detectLanguage b ∈ supportedLangs ∧
    (∀ l, pathMatch b.pathname = some l → detectLanguage b = l) ∧
    (pathMatch b.pathname = none →
      ∀ v, b.langParam = some v → v ∈ supportedLangs → detectLanguage b = v) ∧
    (pathMatch b.pathname = none →
      (∀ v, b.langParam = some v → v ∉ supportedLangs) →
      ∀ v, b.storedLang = some v → v ∈ supportedLangs → detectLanguage b = v) ∧
    (pathMatch b.pathname = none →
      (∀ v, b.langParam = some v → v ∉ supportedLangs) →
      (∀ v, b.storedLang = some v → v ∉ supportedLangs) →
      slice2 b.navigatorLanguage ∈ supportedLangs →
      detectLanguage b = slice2 b.navigatorLanguage) ∧
    (pathMatch b.pathname = none →
      (∀ v, b.langParam = some v → v ∉ supportedLangs) →
      (∀ v, b.storedLang = some v → v ∉ supportedLangs) →
      slice2 b.navigatorLanguage ∉ supportedLangs →
      detectLanguage b = "es") := by
  refine ⟨?_, fun l hl => detectLanguage_path b l hl, fun hp v hv hvs => ?_,
    fun hp hq v hv hvs => ?_, fun hp hq hs hn => ?_, fun hp hq hs hn => ?_⟩
  · -- membership, by cases on each step
    cases hp : pathMatch b.pathname with
    | some l =>
      rw [detectLanguage_path b l hp]
      exact pathMatch_supported hp
    | none =>
      cases hq : b.langParam with
      | none =>
        rw [detectLanguage_noPath_noParam b hp hq]
        exact detectFromStored_mem b
      | some w =>
        by_cases hw : w ∈ supportedLangs
        · rw [detectLanguage_noPath_param b w hp hq,
            if_pos (by rw [supported_passes_check hw])]
          exact hw
        · rw [detectLanguage_noPath_param b w hp hq,
            if_neg (by rw [unsupported_fails_check hw]; exact Bool.false_ne_true)]
          exact detectFromStored_mem b
  · rw [detectLanguage_noPath_param b v hp hv,
      if_pos (by rw [supported_passes_check hvs])]
  · rw [detectLanguage_param_skip b hp hq]
    exact detectFromStored_supported b v hv hvs
  · rw [detectLanguage_param_skip b hp hq, detectFromStored_skip b hs]
    exact detectFromNavigator_supported b hn
  · rw [detectLanguage_param_skip b hp hq, detectFromStored_skip b hs]
    exact detectFromNavigator_default b hn

theorem C4_resolver_priority_witness :
    detectLanguage ⟨"/en/index.html", some "es", some "es", "es-ES"⟩ = "en" ∧
    detectLanguage ⟨"/", some "en", some "es", "es-ES"⟩ = "en" := by
  constructor
  · exact (C4_resolver_priority ⟨"/en/index.html", some "es", some "es", "es-ES"⟩).2.1
      "en" (by decide)
  · exact (C4_resolver_priority ⟨"/", some "en", some "es", "es-ES"⟩).2.2.1
      (by decide) "en" rfl (by decide)

/-! ## Switcher theorems -/

/-- C6: `switchLanguage(l)` with `l` different from the current language,
where the fetch for `l` fails and the fallback load of `'es'` succeeds,
leaves `currentLang = l` while the held document and the stored preference
are those of `'es'`; the switcher marks active exactly the controls whose
`data-lang` is `l`, not `'es'`.  (`h4` says the fallback document renders
without throwing, so that `updateLangSwitcher` is reached.) -/
theorem C6_failed_switch_mismatch (st : AppState) (d : Dom) (buttons : List LangButton)
    (env : String → Option ContentDoc) (lang : String) (doc : ContentDoc)
    (h1 : lang ≠ st.currentLang) (h2 : env lang = none) (h3 : env "es" = some doc)
    (h4 : (runPasses passes doc).2 = none) :
    (switchLanguage st d buttons env lang).state.currentLang = lang ∧
    (switchLanguage st d buttons env lang).state.content = some doc ∧
    (switchLanguage st d buttons env lang).state.gerardLang = some "es" ∧
    (switchLanguage st d buttons env lang).buttons = updateLangSwitcher lang buttons ∧
    (∀ b ∈ (switchLanguage st d buttons env lang).buttons,
      (b.active = true ↔ b.dataLang = lang)) := by
  have hne : lang ≠ "es" := by
    intro he
    rw [he, h3] at h2
    cases h2
  have hload : loadContent { st with currentLang := lang } env lang =
      (⟨lang, some doc, some "es"⟩, [lang, "es"]) := by
    rw [loadContent_fail_fallback _ env lang h2 hne, loadContent_success _ env "es" doc h3]
  have hswitch : switchLanguage st d buttons env lang =
      ⟨⟨lang, some doc, some "es"⟩, applyWrites (runPasses passes doc).1 d,
       updateLangSwitcher lang buttons, [lang, "es"], none⟩ := by
    unfold switchLanguage
    rw [if_neg h1]
    simp only [hload, render, h4]
  refine ⟨by rw [hswitch], by rw [hswitch], by rw [hswitch], by rw [hswitch], ?_⟩
  intro b hb
  rw [hswitch] at hb
  simp only [updateLangSwitcher, List.mem_map] at hb
  obtain ⟨a, _, rfl⟩ := hb
  exact beq_iff_eq

theorem C6_failed_switch_mismatch_witness :
    (switchLanguage ⟨"es", none, none⟩ dom0 buttons0 envEsOnly "en").state.currentLang =
      "en" ∧
    (switchLanguage ⟨"es", none, none⟩ dom0 buttons0 envEsOnly "en").state.content =
      some fullDoc ∧
    (switchLanguage ⟨"es", none, none⟩ dom0 buttons0 envEsOnly "en").state.gerardLang =
      some "es" ∧
    (switchLanguage ⟨"es", none, none⟩ dom0 buttons0 envEsOnly "en").buttons =
      updateLangSwitcher "en" buttons0 := by
  have h := C6_failed_switch_mismatch ⟨"es", none, none⟩ dom0 buttons0 envEsOnly "en"
    fullDoc (by decide) rfl rfl (by decide)
  exact ⟨h.1, h.2.1, h.2.2.1, h.2.2.2.1⟩

/-- C10: after a completed language switch (`lang` differs from the current
language and the render pass did not throw, so `updateLangSwitcher()` ran),
a switcher control carries the `active` class exactly when its `data-lang`
attribute equals the new current language. -/
theorem C10_active_exactly_current (st : AppState) (d : Dom) (buttons : List LangButton)
    (env : String → Option ContentDoc) (lang : String)
    (h1 : lang ≠ st.currentLang)
    (h2 : (switchLanguage st d buttons env lang).err = none) :
    ∀ b ∈ (switchLanguage st d buttons env lang).buttons,
      (b.active = true ↔
        b.dataLang = (switchLanguage st d buttons env lang).state.currentLang) := by
  unfold switchLanguage at h2 ⊢
  rw [if_neg h1] at h2 ⊢
  cases hp : (render (loadContent { st with currentLang := lang } env lang).1.content d).2 with
  | some e =>
    simp [hp] at h2
  | none =>
    simp only [hp]
    intro b hb
    simp only [updateLangSwitcher, List.mem_map] at hb
    obtain ⟨a, _, rfl⟩ := hb
    exact beq_iff_eq

theorem C10_active_exactly_current_witness :
    (LangButton.mk "en" true).active = true ↔
      (LangButton.mk "en" true).dataLang =
        (switchLanguage ⟨"es", none, none⟩ dom0 buttons0 envOk "en").state.currentLang := by
  refine C10_active_exactly_current ⟨"es", none, none⟩ dom0 buttons0 envOk "en"
    (by decide) ?_ ⟨"en", true⟩ ?_
  · show (switchLanguage ⟨"es", none, none⟩ dom0 buttons0 envOk "en").err = none
    simp [switchLanguage, loadContent, envOk]
    decide
  · show LangButton.mk "en" true ∈
      (switchLanguage ⟨"es", none, none⟩ dom0 buttons0 envOk "en").buttons
    simp [switchLanguage, loadContent, envOk]
    decide

/-! ## Which writes are raw markup -/

/-- The selectors written through `innerHTML`: the engine statement block
(`setHTML`) and the two before/after list containers. -/
def markupSelectors : List String :=
  [i18nSel "engine.statement", i18nSel "beforeAfter.before.items",
   i18nSel "beforeAfter.after.items"]

/-- Every raw-markup write in `ws` targets one of `markupSelectors`. -/
def MarkupOnlyAt (ws : List Write) : Prop :=
  ∀ s v, Write.markup s v ∈ ws → s ∈ markupSelectors

theorem markupOnlyAt_nil : MarkupOnlyAt [] := by
  intro s v h
  cases h

theorem markupOnlyAt_append {xs ys : List Write} (hx : MarkupOnlyAt xs)
    (hy : MarkupOnlyAt ys) : MarkupOnlyAt (xs ++ ys) := by
  intro s v h
  rcases List.mem_append.mp h with h | h
  · exact hx s v h
  · exact hy s v h

theorem renderMeta_markupOnly (c : ContentDoc) (ws : List Write)
    (h : renderMeta c = .ok ws) : MarkupOnlyAt ws := by
  intro s v hm
  simp only [renderMeta, Except.ok.injEq] at h
  subst h
  simp at hm

theorem renderNav_markupOnly (c : ContentDoc) (ws : List Write)
    (h : renderNav c = .ok ws) : MarkupOnlyAt ws := by
  intro s v hm
  simp only [renderNav, Except.ok.injEq] at h
  subst h
  simp at hm

theorem renderHero_markupOnly (c : ContentDoc) (ws : List Write)
    (h : renderHero c = .ok ws) : MarkupOnlyAt ws := by
  intro s v hm
  simp only [renderHero, Except.ok.injEq] at h
  subst h
  simp at hm

theorem renderBenefits_markupOnly (c : ContentDoc) (ws : List Write)
    (h : renderBenefits c = .ok ws) : MarkupOnlyAt ws := by
  intro s v hm
  cases hb : c.sections.benefits with
  | none => simp [renderBenefits, hb] at h
  | some benefits =>
    simp only [renderBenefits, hb, Except.ok.injEq] at h
    subst h
    simp at hm

theorem renderDifferential_markupOnly (c : ContentDoc) (ws : List Write)
    (h : renderDifferential c = .ok ws) : MarkupOnlyAt ws := by
  intro s v hm
  cases hb : c.sections.differential with
  | none => simp [renderDifferential, hb] at h
  | some differential =>
    simp only [renderDifferential, hb, Except.ok.injEq] at h
    subst h
    simp at hm

theorem renderHowItWorks_markupOnly (c : ContentDoc) (ws : List Write)
    (h : renderHowItWorks c = .ok ws) : MarkupOnlyAt ws := by
  intro s v hm
  cases hb : c.sections.howItWorks with
  | none => simp [renderHowItWorks, hb] at h
  | some howItWorks =>
    simp only [renderHowItWorks, hb, Except.ok.injEq] at h
    subst h
    simp at hm

theorem renderEngine_markupOnly (c : ContentDoc) (ws : List Write)
    (h : renderEngine c = .ok ws) : MarkupOnlyAt ws := by
  intro s v hm
  cases hb : c.sections.engine with
  | none =>
    simp only [renderEngine, hb, Except.ok.injEq] at h
    subst h
    cases hm
  | some engine =>
    simp only [renderEngine, hb, Except.ok.injEq] at h
    subst h
    simp at hm
    rcases hm with ⟨rfl, rfl⟩
    simp [markupSelectors]

theorem renderFeatures_markupOnly (c : ContentDoc) (ws : List Write)
    (h : renderFeatures c = .ok ws) : MarkupOnlyAt ws := by
  intro s v hm
  cases hb : c.sections.featureSet with
  | none => simp [renderFeatures, hb] at h
  | some featureSet =>
    simp only [renderFeatures, hb, Except.ok.injEq] at h
    subst h
    simp at hm

theorem renderTestimonials_markupOnly (c : ContentDoc) (ws : List Write)
    (h : renderTestimonials c = .ok ws) : MarkupOnlyAt ws := by
  intro s v hm
  cases hb : c.sections.testimonials with
  | none => simp [renderTestimonials, hb] at h
  | some testimonials =>
    simp only [renderTestimonials, hb, Except.ok.injEq] at h
    subst h
    simp at hm

theorem renderBeforeAfter_markupOnly (c : ContentDoc) (ws : List Write)
    (h : renderBeforeAfter c = .ok ws) : MarkupOnlyAt ws := by
  intro s v hm
  cases hb : c.sections.beforeAfter with
  | none => simp [renderBeforeAfter, hb] at h
  | some beforeAfter =>
    simp only [renderBeforeAfter, hb, Except.ok.injEq] at h
    subst h
    simp at hm
    rcases hm with ⟨rfl, rfl⟩ | ⟨rfl, rfl⟩ <;> simp [markupSelectors]

theorem renderUseCases_markupOnly (c : ContentDoc) (ws : List Write)
    (h : renderUseCases c = .ok ws) : MarkupOnlyAt ws := by
  intro s v hm
  cases hb : c.sections.useCases with
  | none => simp [renderUseCases, hb] at h
  | some useCases =>
    simp only [renderUseCases, hb, Except.ok.injEq] at h
    subst h
    simp at hm

theorem renderFAQ_markupOnly (c : ContentDoc) (ws : List Write)
    (h : renderFAQ c = .ok ws) : MarkupOnlyAt ws := by
  intro s v hm
  cases hb : c.sections.faq with
  | none => simp [renderFAQ, hb] at h
  | some faq =>
    simp only [renderFAQ, hb, Except.ok.injEq] at h
    subst h
    simp at hm

theorem renderFinalCTA_markupOnly (c : ContentDoc) (ws : List Write)
    (h : renderFinalCTA c = .ok ws) : MarkupOnlyAt ws := by
  intro s v hm
  cases hb : c.sections.finalCTA with
  | none => simp [renderFinalCTA, hb] at h
  | some finalCTA =>
    simp only [renderFinalCTA, hb, Except.ok.injEq] at h
    subst h
    simp at hm

theorem renderFooter_markupOnly (c : ContentDoc) (ws : List Write)
    (h : renderFooter c = .ok ws) : MarkupOnlyAt ws := by
  intro s v hm
  simp only [renderFooter, Except.ok.injEq] at h
  subst h
  simp at hm

theorem runPasses_markupOnly (ps : List (ContentDoc → Except String (List Write)))
    (c : ContentDoc) (hps : ∀ p ∈ ps, ∀ ws, p c = .ok ws → MarkupOnlyAt ws) :
    MarkupOnlyAt (runPasses ps c).1 := by
  induction ps with
  | nil => exact markupOnlyAt_nil
  | cons p rest ih =>
    cases hp : p c with
    | error e =>
      simp only [runPasses, hp]
      exact markupOnlyAt_nil
    | ok ws =>
      simp only [runPasses, hp]
      exact markupOnlyAt_append (hps p (by simp) ws hp)
        (ih (fun q hq => hps q (List.mem_cons_of_mem p hq)))

theorem passes_markupOnly (c : ContentDoc) : MarkupOnlyAt (runPasses passes c).1 := by
  apply runPasses_markupOnly
  intro p hp ws hws
  simp only [passes, List.mem_cons, List.not_mem_nil, or_false] at hp
  rcases hp with rfl | rfl | rfl | rfl | rfl | rfl | rfl | rfl | rfl | rfl | rfl | rfl |
    rfl | rfl
  · exact renderMeta_markupOnly c ws hws
  · exact renderNav_markupOnly c ws hws
  · exact renderHero_markupOnly c ws hws
  · exact renderBenefits_markupOnly c ws hws
  · exact renderDifferential_markupOnly c ws hws
  · exact renderHowItWorks_markupOnly c ws hws
  · exact renderEngine_markupOnly c ws hws
  · exact renderFeatures_markupOnly c ws hws
  · exact renderTestimonials_markupOnly c ws hws
  · exact renderBeforeAfter_markupOnly c ws hws
  · exact renderUseCases_markupOnly c ws hws
  · exact renderFAQ_markupOnly c ws hws
  · exact renderFinalCTA_markupOnly c ws hws
  · exact renderFooter_markupOnly c ws hws

/-- C1 (counterexample): a before/after list item containing `<b>` is not
inserted as literal text: `renderBeforeAfter` interpolates it into an
`innerHTML` assignment, so the element ends up holding parsed markup, even
though the field is not the designated raw-markup field
(`engine.statement`). -/
theorem C1_beforeAfter_unescaped_counterexample :
    lookupNode (render (some boldItemDoc) dom0).1 (i18nSel "beforeAfter.before.items") =
      some (NodeContent.markup "<li><b>hi</b></li>") ∧
    (∀ t : String,
      NodeContent.markup "<li><b>hi</b></li>" ≠ NodeContent.text t) := by
  constructor
  · decide
  · intro t ht
    cases ht

/-- C1 (amended): every field bound through `setText` is written as literal
text (`Write.text`, i.e. `textContent`, which escapes markup characters);
raw, unescaped insertion (`Write.markup`, i.e. `innerHTML`) happens only at
the engine statement block and the two before/after list containers — for
every content document, any raw-markup write produced by the render pipeline
targets one of those three selectors. -/
theorem C1_markup_only_at_designated (c : ContentDoc) (s v : String)
    (h : Write.markup s v ∈ (runPasses passes c).1) :
    s = i18nSel "engine.statement" ∨ s = i18nSel "beforeAfter.before.items" ∨
      s = i18nSel "beforeAfter.after.items" := by
  have hmem := passes_markupOnly c s v h
  simpa [markupSelectors] using hmem

theorem C1_markup_only_at_designated_witness :
    (i18nSel "engine.statement" = i18nSel "engine.statement" ∨
      i18nSel "engine.statement" = i18nSel "beforeAfter.before.items" ∨
      i18nSel "engine.statement" = i18nSel "beforeAfter.after.items") :=
  C1_markup_only_at_designated fullDoc (i18nSel "engine.statement") "" (by decide)

/-- C2 (counterexample): with `sections.benefits` absent (all later sections
present), the render does not no-op past the benefits pass: it throws a
TypeError, and the later FAQ pass never runs — the FAQ node keeps its old
text even though the document carries a new FAQ title. -/
theorem C2_missing_section_throws_counterexample :
    (render (some noBenefitsDoc) dom0).2 = some "TypeError" ∧
    lookupNode (render (some noBenefitsDoc) dom0).1 (i18nSel "faq.title") =
      some (NodeContent.text "old") ∧
    noBenefitsDoc.sections.faq = some ⟨"", "NEW", []⟩ := by
  refine ⟨by decide, by decide, by decide⟩

/-- C2 (amended): only the engine pass guards against its section being
absent — `sections.engine = none` makes `renderEngine` no-op with no writes
and no error, and (all other sections present) the full pipeline still
completes; for any other section, e.g. benefits or FAQ, absence makes its
pass throw a TypeError, which aborts the remaining passes. -/
theorem C2_only_engine_guarded (c : ContentDoc) :
    (c.sections.engine = none → renderEngine c = .ok []) ∧
    (c.sections.benefits = none → renderBenefits c = .error "TypeError") ∧
    (c.sections.faq = none → renderFAQ c = .error "TypeError") ∧
    (c.sections.engine = none →
      c.sections.benefits.isSome = true → c.sections.differential.isSome = true →
      c.sections.howItWorks.isSome = true → c.sections.featureSet.isSome = true →
      c.sections.testimonials.isSome = true → c.sections.beforeAfter.isSome = true →
      c.sections.useCases.isSome = true → c.sections.faq.isSome = true →
      c.sections.finalCTA.isSome = true →
      (runPasses passes c).2 = none) := by
  refine ⟨fun h => by simp [renderEngine, h], fun h => by simp [renderBenefits, h],
    fun h => by simp [renderFAQ, h], fun heng h1 h2 h3 h4 h5 h6 h7 h8 h9 => ?_⟩
  rw [Option.isSome_iff_exists] at h1 h2 h3 h4 h5 h6 h7 h8 h9
  obtain ⟨benefits, hb⟩ := h1
  obtain ⟨differential, hdi⟩ := h2
  obtain ⟨howItWorks, hh⟩ := h3
  obtain ⟨featureSet, hfs⟩ := h4
  obtain ⟨testimonials, ht⟩ := h5
  obtain ⟨beforeAfter, hba⟩ := h6
  obtain ⟨useCases, hu⟩ := h7
  obtain ⟨faq, hf⟩ := h8
  obtain ⟨finalCTA, hcta⟩ := h9
  simp [passes, runPasses, renderMeta, renderNav, renderHero, renderBenefits,
    renderDifferential, renderHowItWorks, renderEngine, renderFeatures,
    renderTestimonials, renderBeforeAfter, renderUseCases, renderFAQ,
    renderFinalCTA, renderFooter, heng, hb, hdi, hh, hfs, ht, hba, hu, hf, hcta]

theorem C2_only_engine_guarded_witness :
    renderEngine noEngineDoc = .ok [] ∧
    (runPasses passes noEngineDoc).2 = none ∧
    renderBenefits noBenefitsDoc = .error "TypeError" := by
  refine ⟨(C2_only_engine_guarded noEngineDoc).1 rfl, ?_,
    (C2_only_engine_guarded noBenefitsDoc).2.1 rfl⟩
  exact (C2_only_engine_guarded noEngineDoc).2.2.2 rfl (by decide) (by decide)
    (by decide) (by decide) (by decide) (by decide) (by decide) (by decide) (by decide)

end I18n
